import Mathlib

/-!
Shallow embedding of `drivers/gpio/gpio-microsemi.c`, the Microsemi MSS GPIO
driver. Hardware registers are modelled as natural numbers holding 32-bit
values; the driver operations are translated statement by statement. All
register writes truncate to 32 bits exactly as a `u32` store does.
-/

/-- Number of GPIO lines supported by the hardware block; named `MSS_NUM_` plus
the controller abbreviation in the source. -/
def MSS_NUM_GPIO_LINES : Nat := 32

/-- Bit index of the interrupt-enable bit in a per-line config register
(`MSS_GPIO_X_CFG_EN_INT`). -/
def MSS_GPIO_X_CFG_EN_INT : Nat := 3

/-- Bit index of the output-enable bit (`MSS_GPIO_X_CFG_BIT_GPIO_OE`). -/
def MSS_GPIO_X_CFG_BIT_GPIO_OE : Nat := 2

/-- Bit index of the enable-input bit (`MSS_GPIO_X_CFG_BIT_EN_IN`). -/
def MSS_GPIO_X_CFG_BIT_EN_IN : Nat := 1

/-- Bit index of the enable-output bit (`MSS_GPIO_X_CFG_BIT_EN_OUT`). -/
def MSS_GPIO_X_CFG_BIT_EN_OUT : Nat := 0

/-- Mask of all bits of a 32-bit register. -/
def MASK32 : Nat := 2 ^ 32 - 1

/-- Kernel `BIT(nr)` macro, truncated to the 32-bit register width (the C
code computes `1UL << nr` and the truncation happens at the `u32` store;
folding it into `BIT` is equivalent for register values below `2^32`). -/
def BIT (nr : Nat) : Nat := (1 <<< nr) % 2 ^ 32

/-- Trigger mask `MSS_GPIO_INTR_EDGE_BOTH_MASK = (4u) << 5`. -/
def MSS_GPIO_INTR_EDGE_BOTH_MASK : Nat := 4 <<< 5

/-- Trigger mask `MSS_GPIO_INTR_EDGE_NEGATIVE_MASK = (3u) << 5`. -/
def MSS_GPIO_INTR_EDGE_NEGATIVE_MASK : Nat := 3 <<< 5

/-- Trigger mask `MSS_GPIO_INTR_EDGE_POSITIVE_MASK = (2u) << 5`. -/
def MSS_GPIO_INTR_EDGE_POSITIVE_MASK : Nat := 2 <<< 5

/-- Trigger mask `MSS_GPIO_INTR_LEVEL_LOW_MASK = (1u) << 5`. -/
def MSS_GPIO_INTR_LEVEL_LOW_MASK : Nat := 1 <<< 5

/-- Trigger mask `MSS_GPIO_INTR_LEVEL_HIGH_MASK = (0u) << 5`. -/
def MSS_GPIO_INTR_LEVEL_HIGH_MASK : Nat := 0 <<< 5

/-- Status-register mask `MSS_GPIO_IRQ_MASK = BIT_MASK(32) - 1`; on the
64-bit target `BIT_MASK(32) = 1UL << 32`, so this is the all-ones 32-bit
mask. -/
def MSS_GPIO_IRQ_MASK : Nat := (1 <<< 32) - 1

/-- Linux trigger-type constant `IRQ_TYPE_EDGE_RISING` from
`include/linux/irq.h` (external collaborator of the driver). -/
def IRQ_TYPE_EDGE_RISING : Nat := 1

/-- Linux trigger-type constant `IRQ_TYPE_EDGE_FALLING`. -/
def IRQ_TYPE_EDGE_FALLING : Nat := 2

/-- Linux trigger-type constant `IRQ_TYPE_EDGE_BOTH`. -/
def IRQ_TYPE_EDGE_BOTH : Nat := 3

/-- Linux trigger-type constant `IRQ_TYPE_LEVEL_HIGH`. -/
def IRQ_TYPE_LEVEL_HIGH : Nat := 4

/-- Linux trigger-type constant `IRQ_TYPE_LEVEL_LOW`. -/
def IRQ_TYPE_LEVEL_LOW : Nat := 8

/-- Errors surfaced by the driver. Both are returned as `-EINVAL` in the C
source; the spec names the line-count one `TooManyLines` and the per-line
one `InvalidLine`. -/
inductive GpioError where
  | invalidLine : GpioError
  | tooManyLines : GpioError
deriving DecidableEq

/-- State of the register block of one `microsemi_mss_gpio_chip` together
with the resolved line count `gc.ngpio`. `cfg i` is the per-line config
register at `gpio_cfg_base + i`; `irqStatus` is the sticky interrupt-status
register at `gpio_irq_base`; `inputReg` and `outputReg` are the shared
input and output registers. -/
structure GpioState where
  ngpio : Nat
  cfg : Nat → Nat
  irqStatus : Nat
  inputReg : Nat
  outputReg : Nat

/-- Helper `microsemi_mss_gpio_assign_bit`: read the register, set or clear
the addressed bit depending on whether `value` is nonzero, and produce the
word written back. -/
def microsemi_mss_gpio_assign_bit (reg : Nat) (bit_offset : Nat) (value : Nat) : Nat :=
  if value ≠ 0 then (reg ||| BIT bit_offset) % 2 ^ 32
  else reg &&& (MASK32 ^^^ BIT bit_offset)

/-- Modelled from the spec: the interrupt-status register is sticky and
write-1-to-clear — storing a word clears exactly the status bits that are
set in the stored word and leaves every other bit unchanged. The hardware
side of the status register is not part of the driver source. `reg` is the
current register content and `value` the word the driver stores. -/
def w1cStatusWrite (reg : Nat) (value : Nat) : Nat :=
  reg &&& (MASK32 ^^^ value % 2 ^ 32)

/-- Driver operation `microsemi_mss_gpio_direction_input`: validate the
index, then read-modify-write the line's config register, setting
enable-input and clearing enable-output and output-enable. -/
def microsemi_mss_gpio_direction_input (s : GpioState) (gpio_index : Nat) :
    GpioState × Except GpioError Unit :=
  if gpio_index ≥ s.ngpio then (s, .error .invalidLine)
  else
    let gpio_cfg := s.cfg gpio_index
    let gpio_cfg := gpio_cfg ||| BIT MSS_GPIO_X_CFG_BIT_EN_IN
    let gpio_cfg := gpio_cfg &&&
      (MASK32 ^^^ (BIT MSS_GPIO_X_CFG_BIT_EN_OUT ||| BIT MSS_GPIO_X_CFG_BIT_GPIO_OE))
    ({ s with cfg := fun j => if j = gpio_index then gpio_cfg else s.cfg j }, .ok ())

/-- Driver operation `microsemi_mss_gpio_direction_output`: validate the
index, overwrite the line's config register starting from zero with
enable-output and output-enable set and enable-input cleared, then
read-modify-write the addressed bit of the shared output register. -/
def microsemi_mss_gpio_direction_output (s : GpioState) (gpio_index : Nat) (value : Nat) :
    GpioState × Except GpioError Unit :=
  if gpio_index ≥ s.ngpio then (s, .error .invalidLine)
  else
    let gpio_cfg := 0
    let gpio_cfg := gpio_cfg |||
      (BIT MSS_GPIO_X_CFG_BIT_EN_OUT ||| BIT MSS_GPIO_X_CFG_BIT_GPIO_OE)
    let gpio_cfg := gpio_cfg &&& (MASK32 ^^^ BIT MSS_GPIO_X_CFG_BIT_EN_IN)
    let s1 : GpioState :=
      { s with cfg := fun j => if j = gpio_index then gpio_cfg else s.cfg j }
    let s2 : GpioState :=
      { s1 with outputReg := microsemi_mss_gpio_assign_bit s1.outputReg gpio_index value }
    (s2, .ok ())

/-- Driver operation `microsemi_mss_gpio_get_direction`: validate the index
and decode the config register; `1` is input, `0` is output (also the sane
default when neither pattern matches). -/
def microsemi_mss_gpio_get_direction (s : GpioState) (gpio_index : Nat) :
    Except GpioError Nat :=
  if gpio_index ≥ s.ngpio then .error .invalidLine
  else
    let gpio_cfg := s.cfg gpio_index
    if gpio_cfg &&& BIT MSS_GPIO_X_CFG_BIT_EN_IN ≠ 0 then .ok 1
    else if gpio_cfg &&& (BIT MSS_GPIO_X_CFG_BIT_EN_OUT ||| BIT MSS_GPIO_X_CFG_BIT_GPIO_OE)
        = (BIT MSS_GPIO_X_CFG_BIT_EN_OUT ||| BIT MSS_GPIO_X_CFG_BIT_GPIO_OE) then .ok 0
    else .ok 0

/-- Driver operation `microsemi_mss_gpio_get_value`: validate the index and
return the double-negated addressed bit of the shared input register. -/
def microsemi_mss_gpio_get_value (s : GpioState) (gpio_index : Nat) :
    Except GpioError Nat :=
  if gpio_index ≥ s.ngpio then .error .invalidLine
  else .ok (if s.inputReg &&& BIT gpio_index ≠ 0 then 1 else 0)

/-- Driver operation `microsemi_mss_gpio_set_value`: silently return on an
out-of-range index, otherwise read-modify-write the addressed bit of the
shared output register. -/
def microsemi_mss_gpio_set_value (s : GpioState) (gpio_index : Nat) (value : Nat) :
    GpioState :=
  if gpio_index ≥ s.ngpio then s
  else { s with outputReg := microsemi_mss_gpio_assign_bit s.outputReg gpio_index value }

/-- Trigger-type encoding switch of `microsemi_mss_gpio_irq_set_type`:
`IRQ_TYPE_LEVEL_LOW` and every unhandled request fall to the default arm. -/
def mss_gpio_interrupt_type (type : Nat) : Nat :=
  if type = IRQ_TYPE_EDGE_BOTH then MSS_GPIO_INTR_EDGE_BOTH_MASK
  else if type = IRQ_TYPE_EDGE_FALLING then MSS_GPIO_INTR_EDGE_NEGATIVE_MASK
  else if type = IRQ_TYPE_EDGE_RISING then MSS_GPIO_INTR_EDGE_POSITIVE_MASK
  else if type = IRQ_TYPE_LEVEL_HIGH then MSS_GPIO_INTR_LEVEL_HIGH_MASK
  else MSS_GPIO_INTR_LEVEL_LOW_MASK

/-- Driver operation `microsemi_mss_gpio_irq_set_type`: validate the index,
encode the trigger type, and OR it into the line's config register. -/
def microsemi_mss_gpio_irq_set_type (s : GpioState) (gpio_index : Nat) (type : Nat) :
    GpioState × Except GpioError Unit :=
  if gpio_index ≥ s.ngpio then (s, .error .invalidLine)
  else
    let interrupt_type := mss_gpio_interrupt_type type
    let gpio_cfg := s.cfg gpio_index ||| interrupt_type
    ({ s with cfg := fun j => if j = gpio_index then gpio_cfg else s.cfg j }, .ok ())

/-- Driver operation `microsemi_mss_gpio_irq_enable`: reduce the hardware
interrupt number modulo `MSS_NUM_GPIO_LINES` without validation, switch the line
to input, store a word with the line's bit set to the sticky status
register, and set the interrupt-enable bit in the line's config register. -/
def microsemi_mss_gpio_irq_enable (s : GpioState) (hwirq : Nat) : GpioState :=
  let gpio_index := hwirq % MSS_NUM_GPIO_LINES
  let s1 := (microsemi_mss_gpio_direction_input s gpio_index).1
  let irq1 := w1cStatusWrite s1.irqStatus
    (microsemi_mss_gpio_assign_bit s1.irqStatus gpio_index 1)
  let s2 : GpioState := { s1 with irqStatus := irq1 }
  let cfg2 := fun j =>
    if j = gpio_index then
      microsemi_mss_gpio_assign_bit (s2.cfg gpio_index) MSS_GPIO_X_CFG_EN_INT 1
    else s2.cfg j
  { s2 with cfg := cfg2 }

/-- First step of `microsemi_mss_gpio_irq_enable`: the call to
`microsemi_mss_gpio_direction_input`. -/
def mss_gpio_irq_enable_input_step (s : GpioState) (gpio_index : Nat) : GpioState :=
  (microsemi_mss_gpio_direction_input s gpio_index).1

/-- Second step of `microsemi_mss_gpio_irq_enable`: the sticky-pending
clear, an `assign_bit` on the write-1-to-clear status register. -/
def mss_gpio_irq_enable_sticky_step (s : GpioState) (gpio_index : Nat) : GpioState :=
  let irq1 := w1cStatusWrite s.irqStatus
    (microsemi_mss_gpio_assign_bit s.irqStatus gpio_index 1)
  { s with irqStatus := irq1 }

/-- Third step of `microsemi_mss_gpio_irq_enable`: setting the
interrupt-enable bit in the line's config register. -/
def mss_gpio_irq_enable_int_step (s : GpioState) (gpio_index : Nat) : GpioState :=
  { s with cfg := fun j =>
      if j = gpio_index then
        microsemi_mss_gpio_assign_bit (s.cfg gpio_index) MSS_GPIO_X_CFG_EN_INT 1
      else s.cfg j }

/-- Driver operation `microsemi_mss_gpio_irq_disable`: reduce the hardware
interrupt number modulo `MSS_NUM_GPIO_LINES` without validation and clear the
interrupt-enable bit in the line's config register. -/
def microsemi_mss_gpio_irq_disable (s : GpioState) (hwirq : Nat) : GpioState :=
  let gpio_index := hwirq % MSS_NUM_GPIO_LINES
  { s with cfg := fun j =>
      if j = gpio_index then
        microsemi_mss_gpio_assign_bit (s.cfg gpio_index) MSS_GPIO_X_CFG_EN_INT 0
      else s.cfg j }

/-- Index list produced by `for_each_set_bit(offset, &status, ngpio)`: the
set bits of `x` below `n`, in increasing order. -/
def setBitIndices (x : Nat) (n : Nat) : List Nat :=
  (List.range n).filter (fun i => x.testBit i)

/-- Observable trace of one call of the interrupt handler: the final
register state, the line indices dispatched through
`generic_handle_irq` in call order, and the sequence of words stored to
the interrupt-status register in store order. -/
structure HandlerTrace where
  state : GpioState
  dispatched : List Nat
  statusWrites : List Nat

/-- Loop body of `microsemi_gpio_irq_handler`: one iteration clears the
current offset's status bit with `assign_bit` (a read-modify-write on the
write-1-to-clear status register) and dispatches the offset. -/
def mss_gpio_handler_step (t : HandlerTrace) (offset : Nat) : HandlerTrace :=
  let w := microsemi_mss_gpio_assign_bit t.state.irqStatus offset 1
  { state := { t.state with irqStatus := w1cStatusWrite t.state.irqStatus w },
    dispatched := t.dispatched ++ [offset],
    statusWrites := t.statusWrites ++ [w] }

/-- Driver interrupt handler `microsemi_gpio_irq_handler` (the variant
registered through `devm_request_irq`): read the status register, mask it,
and for each set bit below `ngpio` in ascending order clear that bit and
dispatch the line's logical interrupt. -/
def microsemi_gpio_irq_handler (s : GpioState) : HandlerTrace :=
  let status := s.irqStatus &&& MSS_GPIO_IRQ_MASK
  (setBitIndices status s.ngpio).foldl mss_gpio_handler_step
    { state := s, dispatched := [], statusWrites := [] }

/-- Per-line body of the defensive interrupt-disable loop at the end of
`microsemi_mss_gpio_probe`: read the line's config register, clear
`BIT(MSS_GPIO_X_CFG_EN_INT)`, write it back. -/
def mss_gpio_probe_disable_step (t : GpioState) (gpio_index : Nat) : GpioState :=
  { t with cfg := fun j =>
      if j = gpio_index then t.cfg gpio_index &&& (MASK32 ^^^ BIT MSS_GPIO_X_CFG_EN_INT)
      else t.cfg j }

/-- Core of `microsemi_mss_gpio_probe` over the register block `s` left by
prior hardware state: reject a line count above `MSS_NUM_GPIO_LINES`, otherwise
record the line count and run the defensive loop clearing the
interrupt-enable bit of every line below it. Resource acquisition
(ioremap, clock, interrupt-descriptor allocation) is performed by external
collaborators and is not part of the modelled core. -/
def microsemi_mss_gpio_probe (ngpio : Nat) (s : GpioState) : Except GpioError GpioState :=
  if ngpio > MSS_NUM_GPIO_LINES then .error .tooManyLines
  else .ok ((List.range ngpio).foldl mss_gpio_probe_disable_step { s with ngpio := ngpio })

/-! Helper lemmas about the bit-level primitives. -/

theorem MASK32_testBit (i : Nat) : MASK32.testBit i = decide (i < 32) := by
  have h : MASK32 = 2 ^ 32 - 1 := rfl
  rw [h, Nat.testBit_two_pow_sub_one]

theorem BIT_eq {b : Nat} (hb : b < 32) : BIT b = 2 ^ b := by
  unfold BIT
  rw [Nat.shiftLeft_eq, one_mul]
  exact Nat.mod_eq_of_lt (Nat.pow_lt_pow_right (by norm_num) hb)

theorem BIT_testBit {b : Nat} (hb : b < 32) (i : Nat) :
    (BIT b).testBit i = decide (b = i) := by
  rw [BIT_eq hb, Nat.testBit_two_pow]

theorem BIT_lt {b : Nat} : BIT b < 2 ^ 32 := by
  unfold BIT
  exact Nat.mod_lt _ (by norm_num)

theorem MASK32_lt : MASK32 < 2 ^ 32 := by
  unfold MASK32
  norm_num

theorem assign_bit_lt (reg off v : Nat) :
    microsemi_mss_gpio_assign_bit reg off v < 2 ^ 32 := by
  unfold microsemi_mss_gpio_assign_bit
  split
  · exact Nat.mod_lt _ (by norm_num)
  · exact Nat.and_lt_two_pow reg (Nat.xor_lt_two_pow MASK32_lt BIT_lt)

theorem w1c_lt (reg v : Nat) : w1cStatusWrite reg v < 2 ^ 32 := by
  unfold w1cStatusWrite
  exact Nat.and_lt_two_pow reg (Nat.xor_lt_two_pow MASK32_lt (Nat.mod_lt _ (by norm_num)))

theorem assign_bit_set_testBit (reg : Nat) {off : Nat} (hoff : off < 32) {v : Nat}
    (hv : v ≠ 0) (i : Nat) (hreg : reg < 2 ^ 32) :
    (microsemi_mss_gpio_assign_bit reg off v).testBit i
      = (reg.testBit i || decide (off = i)) := by
  unfold microsemi_mss_gpio_assign_bit
  rw [if_pos hv]
  by_cases h : i < 32
  · simp only [Nat.testBit_mod_two_pow, Nat.testBit_or, BIT_testBit hoff]
    simp [h]
  · have hri : reg.testBit i = false :=
      Nat.testBit_lt_two_pow
        (lt_of_lt_of_le hreg (Nat.pow_le_pow_right (by norm_num) (not_lt.1 h)))
    have hoi : off ≠ i := by omega
    simp only [Nat.testBit_mod_two_pow]
    simp [h, hri, hoi]

theorem assign_bit_set_testBit_self (reg : Nat) {off : Nat} (hoff : off < 32) {v : Nat}
    (hv : v ≠ 0) :
    (microsemi_mss_gpio_assign_bit reg off v).testBit off = true := by
  unfold microsemi_mss_gpio_assign_bit
  rw [if_pos hv]
  simp only [Nat.testBit_mod_two_pow, Nat.testBit_or, BIT_testBit hoff]
  simp [hoff]

theorem assign_bit_clear_testBit (reg : Nat) {off : Nat} (hoff : off < 32) (i : Nat)
    (hreg : reg < 2 ^ 32) :
    (microsemi_mss_gpio_assign_bit reg off 0).testBit i
      = (reg.testBit i && !decide (off = i)) := by
  unfold microsemi_mss_gpio_assign_bit
  rw [if_neg (by norm_num)]
  by_cases h : i < 32
  · simp [Nat.testBit_and, Nat.testBit_xor, MASK32_testBit, BIT_testBit hoff, h]
  · have hri : reg.testBit i = false :=
      Nat.testBit_lt_two_pow
        (lt_of_lt_of_le hreg (Nat.pow_le_pow_right (by norm_num) (not_lt.1 h)))
    simp [Nat.testBit_and, hri]

theorem assign_bit_clear_testBit_self (reg : Nat) {off : Nat} (hoff : off < 32) :
    (microsemi_mss_gpio_assign_bit reg off 0).testBit off = false := by
  unfold microsemi_mss_gpio_assign_bit
  rw [if_neg (by norm_num)]
  simp [Nat.testBit_and, Nat.testBit_xor, MASK32_testBit, BIT_testBit hoff, hoff]

theorem w1c_testBit (reg v i : Nat) :
    (w1cStatusWrite reg v).testBit i
      = (reg.testBit i && (decide (i < 32) && !v.testBit i)) := by
  unfold w1cStatusWrite
  by_cases h : i < 32
  · simp only [Nat.testBit_and, Nat.testBit_xor, MASK32_testBit, Nat.testBit_mod_two_pow]
    simp [h]
  · simp only [Nat.testBit_and, Nat.testBit_xor, MASK32_testBit, Nat.testBit_mod_two_pow]
    simp [h]

theorem land_two_pow_ne_zero_iff (x b : Nat) : (x &&& 2 ^ b ≠ 0) ↔ x.testBit b = true := by
  rw [Nat.and_two_pow]
  cases h : x.testBit b <;> simp [h]

/-! Unfolding lemmas for the driver operations. -/

theorem direction_input_out_of_range (s : GpioState) (i : Nat) (hi : s.ngpio ≤ i) :
    microsemi_mss_gpio_direction_input s i = (s, .error .invalidLine) := by
  unfold microsemi_mss_gpio_direction_input
  rw [if_pos hi]

theorem direction_input_in_range (s : GpioState) (i : Nat) (hi : i < s.ngpio) :
    microsemi_mss_gpio_direction_input s i =
      ({ s with cfg := fun j => if j = i then
            (s.cfg i ||| BIT MSS_GPIO_X_CFG_BIT_EN_IN) &&&
              (MASK32 ^^^ (BIT MSS_GPIO_X_CFG_BIT_EN_OUT ||| BIT MSS_GPIO_X_CFG_BIT_GPIO_OE))
          else s.cfg j }, .ok ()) := by
  unfold microsemi_mss_gpio_direction_input
  rw [if_neg (not_le.2 hi)]

theorem direction_output_out_of_range (s : GpioState) (i v : Nat) (hi : s.ngpio ≤ i) :
    microsemi_mss_gpio_direction_output s i v = (s, .error .invalidLine) := by
  unfold microsemi_mss_gpio_direction_output
  rw [if_pos hi]

theorem direction_output_in_range (s : GpioState) (i v : Nat) (hi : i < s.ngpio) :
    microsemi_mss_gpio_direction_output s i v =
      ({ s with
          cfg := fun j => if j = i then
              ((0 ||| (BIT MSS_GPIO_X_CFG_BIT_EN_OUT ||| BIT MSS_GPIO_X_CFG_BIT_GPIO_OE)) &&&
                (MASK32 ^^^ BIT MSS_GPIO_X_CFG_BIT_EN_IN))
            else s.cfg j,
          outputReg := microsemi_mss_gpio_assign_bit s.outputReg i v }, .ok ()) := by
  unfold microsemi_mss_gpio_direction_output
  rw [if_neg (not_le.2 hi)]

theorem get_direction_out_of_range (s : GpioState) (i : Nat) (hi : s.ngpio ≤ i) :
    microsemi_mss_gpio_get_direction s i = .error .invalidLine := by
  unfold microsemi_mss_gpio_get_direction
  rw [if_pos hi]

theorem get_value_out_of_range (s : GpioState) (i : Nat) (hi : s.ngpio ≤ i) :
    microsemi_mss_gpio_get_value s i = .error .invalidLine := by
  unfold microsemi_mss_gpio_get_value
  rw [if_pos hi]

theorem get_value_in_range (s : GpioState) (i : Nat) (hi : i < s.ngpio) :
    microsemi_mss_gpio_get_value s i
      = .ok (if s.inputReg &&& BIT i ≠ 0 then 1 else 0) := by
  unfold microsemi_mss_gpio_get_value
  rw [if_neg (not_le.2 hi)]

theorem set_value_out_of_range (s : GpioState) (i v : Nat) (hi : s.ngpio ≤ i) :
    microsemi_mss_gpio_set_value s i v = s := by
  unfold microsemi_mss_gpio_set_value
  rw [if_pos hi]

theorem irq_set_type_out_of_range (s : GpioState) (i t : Nat) (hi : s.ngpio ≤ i) :
    microsemi_mss_gpio_irq_set_type s i t = (s, .error .invalidLine) := by
  unfold microsemi_mss_gpio_irq_set_type
  rw [if_pos hi]

theorem irq_set_type_in_range (s : GpioState) (i t : Nat) (hi : i < s.ngpio) :
    microsemi_mss_gpio_irq_set_type s i t =
      ({ s with cfg := fun j => if j = i then s.cfg i ||| mss_gpio_interrupt_type t
          else s.cfg j }, .ok ()) := by
  unfold microsemi_mss_gpio_irq_set_type
  rw [if_neg (not_le.2 hi)]

theorem irq_set_type_ngpio (s : GpioState) (i t : Nat) :
    (microsemi_mss_gpio_irq_set_type s i t).1.ngpio = s.ngpio := by
  unfold microsemi_mss_gpio_irq_set_type
  split <;> rfl

theorem irq_set_type_cfg_self (s : GpioState) (i t : Nat) (hi : i < s.ngpio) :
    (microsemi_mss_gpio_irq_set_type s i t).1.cfg i
      = s.cfg i ||| mss_gpio_interrupt_type t := by
  rw [irq_set_type_in_range s i t hi]
  simp

theorem irq_disable_eq (s : GpioState) (hwirq : Nat) :
    microsemi_mss_gpio_irq_disable s hwirq =
      { s with cfg := fun j => if j = hwirq % MSS_NUM_GPIO_LINES then
            microsemi_mss_gpio_assign_bit (s.cfg (hwirq % MSS_NUM_GPIO_LINES)) MSS_GPIO_X_CFG_EN_INT 0
          else s.cfg j } := rfl

theorem irq_enable_eq_steps (s : GpioState) (hwirq : Nat) :
    microsemi_mss_gpio_irq_enable s hwirq =
      mss_gpio_irq_enable_int_step
        (mss_gpio_irq_enable_sticky_step
          (mss_gpio_irq_enable_input_step s (hwirq % MSS_NUM_GPIO_LINES)) (hwirq % MSS_NUM_GPIO_LINES))
        (hwirq % MSS_NUM_GPIO_LINES) := rfl

theorem enable_int_step_cfg_self (s : GpioState) (gi : Nat) :
    (mss_gpio_irq_enable_int_step s gi).cfg gi
      = microsemi_mss_gpio_assign_bit (s.cfg gi) MSS_GPIO_X_CFG_EN_INT 1 := by
  unfold mss_gpio_irq_enable_int_step
  simp

theorem enable_int_step_cfg_other (s : GpioState) (gi j : Nat) (hj : j ≠ gi) :
    (mss_gpio_irq_enable_int_step s gi).cfg j = s.cfg j := by
  unfold mss_gpio_irq_enable_int_step
  simp [hj]

theorem enable_sticky_step_irqStatus (s : GpioState) (gi : Nat) :
    (mss_gpio_irq_enable_sticky_step s gi).irqStatus
      = w1cStatusWrite s.irqStatus (microsemi_mss_gpio_assign_bit s.irqStatus gi 1) := rfl

theorem irq_enable_cfg_en_int (s : GpioState) (hwirq : Nat) :
    ((microsemi_mss_gpio_irq_enable s hwirq).cfg (hwirq % MSS_NUM_GPIO_LINES)).testBit
        MSS_GPIO_X_CFG_EN_INT = true := by
  rw [irq_enable_eq_steps, enable_int_step_cfg_self]
  exact assign_bit_set_testBit_self _ (by norm_num [MSS_GPIO_X_CFG_EN_INT]) (by norm_num)

/-! Lemmas about the interrupt-handler loop and the probe loop. -/

theorem mem_setBitIndices {i x n : Nat} :
    i ∈ setBitIndices x n ↔ (i < n ∧ x.testBit i = true) := by
  simp [setBitIndices, List.mem_filter, List.mem_range]

theorem setBitIndices_zero (n : Nat) : setBitIndices 0 n = [] := by
  simp [setBitIndices]

theorem setBitIndices_548 (n : Nat) (h : 10 ≤ n) : setBitIndices 548 n = [2, 5, 9] := by
  obtain ⟨k, rfl⟩ : ∃ k, n = 10 + k := ⟨n - 10, by omega⟩
  unfold setBitIndices
  rw [List.range_add, List.filter_append]
  have h1 : (List.range 10).filter (fun i => Nat.testBit 548 i) = [2, 5, 9] := by decide
  have h2 : ((List.range k).map (10 + ·)).filter (fun i => Nat.testBit 548 i) = [] := by
    rw [List.filter_eq_nil_iff]
    intro a ha
    simp only [List.mem_map] at ha
    obtain ⟨b, _, rfl⟩ := ha
    have hb : (548 : Nat) < 2 ^ (10 + b) :=
      lt_of_lt_of_le (show (548 : Nat) < 2 ^ 10 by norm_num)
        (Nat.pow_le_pow_right (by norm_num) (by omega))
    simp [Nat.testBit_lt_two_pow hb]
  rw [h1, h2, List.append_nil]

theorem handler_foldl_dispatched (l : List Nat) (t : HandlerTrace) :
    (l.foldl mss_gpio_handler_step t).dispatched = t.dispatched ++ l := by
  induction l generalizing t with
  | nil => simp
  | cons a l ih =>
    rw [List.foldl_cons, ih]
    unfold mss_gpio_handler_step
    simp

theorem handler_foldl_state_misc (l : List Nat) (t : HandlerTrace) :
    ((l.foldl mss_gpio_handler_step t).state.cfg = t.state.cfg ∧
      (l.foldl mss_gpio_handler_step t).state.inputReg = t.state.inputReg) ∧
    ((l.foldl mss_gpio_handler_step t).state.outputReg = t.state.outputReg ∧
      (l.foldl mss_gpio_handler_step t).state.ngpio = t.state.ngpio) := by
  induction l generalizing t with
  | nil => exact ⟨⟨rfl, rfl⟩, rfl, rfl⟩
  | cons a l ih =>
    rw [List.foldl_cons]
    exact ih (mss_gpio_handler_step t a)

theorem handler_dispatched (s : GpioState) :
    (microsemi_gpio_irq_handler s).dispatched
      = setBitIndices (s.irqStatus &&& MSS_GPIO_IRQ_MASK) s.ngpio := by
  unfold microsemi_gpio_irq_handler
  rw [handler_foldl_dispatched]
  simp

theorem handler_of_zero_status (s : GpioState) (h : s.irqStatus = 0) :
    microsemi_gpio_irq_handler s
      = { state := s, dispatched := [], statusWrites := [] } := by
  unfold microsemi_gpio_irq_handler
  simp only [h, show (0 : Nat) &&& MSS_GPIO_IRQ_MASK = 0 from by decide, setBitIndices_zero,
    List.foldl_nil]

theorem probe_step_cfg_self (t : GpioState) (gi : Nat) :
    (mss_gpio_probe_disable_step t gi).cfg gi
      = t.cfg gi &&& (MASK32 ^^^ BIT MSS_GPIO_X_CFG_EN_INT) := by
  unfold mss_gpio_probe_disable_step
  simp

theorem probe_step_cfg_other (t : GpioState) (gi j : Nat) (hj : j ≠ gi) :
    (mss_gpio_probe_disable_step t gi).cfg j = t.cfg j := by
  unfold mss_gpio_probe_disable_step
  simp [hj]

theorem probe_fold_cfg (s0 : GpioState) (m j : Nat) :
    ((List.range m).foldl mss_gpio_probe_disable_step s0).cfg j
      = if j < m then s0.cfg j &&& (MASK32 ^^^ BIT MSS_GPIO_X_CFG_EN_INT) else s0.cfg j := by
  induction m with
  | zero => simp
  | succ m ih =>
    rw [List.range_succ, List.foldl_append, List.foldl_cons, List.foldl_nil]
    by_cases hj : j = m
    · subst hj
      rw [probe_step_cfg_self, ih, if_neg (lt_irrefl _), if_pos (Nat.lt_succ_self _)]
    · rw [probe_step_cfg_other _ _ _ hj, ih]
      by_cases hjm : j < m
      · rw [if_pos hjm, if_pos (by omega)]
      · rw [if_neg hjm, if_neg (by omega)]

theorem probe_fold_misc (s0 : GpioState) (m : Nat) :
    ((List.range m).foldl mss_gpio_probe_disable_step s0).ngpio = s0.ngpio ∧
    ((List.range m).foldl mss_gpio_probe_disable_step s0).irqStatus = s0.irqStatus ∧
    ((List.range m).foldl mss_gpio_probe_disable_step s0).inputReg = s0.inputReg ∧
    ((List.range m).foldl mss_gpio_probe_disable_step s0).outputReg = s0.outputReg := by
  induction m with
  | zero => exact ⟨rfl, rfl, rfl, rfl⟩
  | succ m ih =>
    rw [List.range_succ, List.foldl_append, List.foldl_cons, List.foldl_nil]
    exact ⟨ih.1, ih.2.1, ih.2.2.1, ih.2.2.2⟩

theorem irq_enable_sticky_cleared (s : GpioState) (hwirq : Nat) :
    (microsemi_mss_gpio_irq_enable s hwirq).irqStatus.testBit (hwirq % MSS_NUM_GPIO_LINES)
      = false := by
  rw [irq_enable_eq_steps,
    show (mss_gpio_irq_enable_int_step
        (mss_gpio_irq_enable_sticky_step
          (mss_gpio_irq_enable_input_step s (hwirq % MSS_NUM_GPIO_LINES)) (hwirq % MSS_NUM_GPIO_LINES))
        (hwirq % MSS_NUM_GPIO_LINES)).irqStatus
      = (mss_gpio_irq_enable_sticky_step
          (mss_gpio_irq_enable_input_step s (hwirq % MSS_NUM_GPIO_LINES))
          (hwirq % MSS_NUM_GPIO_LINES)).irqStatus from rfl,
    enable_sticky_step_irqStatus, w1c_testBit]
  have hlt : hwirq % MSS_NUM_GPIO_LINES < 32 := Nat.mod_lt _ (by norm_num [MSS_NUM_GPIO_LINES])
  rw [assign_bit_set_testBit_self _ hlt (by norm_num)]
  simp

/-! Concrete register states used by counterexamples and witnesses. -/

/-- Sample well-formed controller state: 32 lines, every config register
holding bits {1, 3, 7}, status bits {0, 2, 5} pending. -/
def sampleState : GpioState :=
  { ngpio := 32, cfg := fun _ => 138, irqStatus := 37, inputReg := 5, outputReg := 9 }

/-- State with lines 2 and 5 pending in the status register. -/
def s0C1 : GpioState :=
  { ngpio := 32, cfg := fun _ => 0, irqStatus := 36, inputReg := 0, outputReg := 0 }

/-- State with 8 lines, every config register holding only the
interrupt-enable bit (value 8). -/
def s0C2 : GpioState :=
  { ngpio := 8, cfg := fun _ => 8, irqStatus := 0, inputReg := 0, outputReg := 0 }

/-- State with 10 lines and exactly status bits {2, 5, 9} set (548). -/
def s0C4 : GpioState :=
  { ngpio := 10, cfg := fun _ => 0, irqStatus := 548, inputReg := 0, outputReg := 0 }

/-- Single-line state whose shared input register reads 0. -/
def s0C7 : GpioState :=
  { ngpio := 1, cfg := fun _ => 0, irqStatus := 0, inputReg := 0, outputReg := 0 }

/-- Claim C1: the claim states that each status-register write of a
dispatch cycle asserts exactly the single bit of the line being cleared
and writes 0 in every other bit position. The code refutes this: the
handler clears pending bits with the read-modify-write helper
`assign_bit`, so with lines 2 and 5 pending (status = 36) the write that
clears line 2 stores the word 36 — asserting bit 5 as well, not the
single-bit word `BIT 2` — and a line that became pending between the
initial status read and this write would be cleared without ever being
dispatched, exactly the clobbering the spec forbids. -/
theorem spec_C1_code_bug :
    (microsemi_gpio_irq_handler s0C1).statusWrites = [36, 32] ∧
    Nat.testBit 36 5 = true ∧ (36 : Nat) ≠ BIT 2 := by decide

/-- Claim C2 counterexample: with `lineCount = 8`, the out-of-range index
10 is not rejected by the interrupt-chip `disable` operation — the call
mutates line 10's config register, clearing its interrupt-enable bit
(value 8 becomes 0), so enable/disable do not leave all registers
unchanged on out-of-range indices as the claim states. -/
theorem spec_C2_counterexample :
    s0C2.ngpio ≤ 10 ∧ (microsemi_mss_gpio_irq_disable s0C2 10).cfg 10 = 0 ∧
      s0C2.cfg 10 = 8 := by decide

/-- Claim C2 (amended): for every index at or above `lineCount`, the
operations with a return channel return `InvalidLine` with no state
change and `setValue` silently no-ops; but the interrupt-chip operations
`enable` and `disable` perform no validation: they reduce the index
modulo 32 and mutate that line's registers — `disable`
read-modify-writes that line's config register clearing the
interrupt-enable bit, and `enable` leaves that line's interrupt-enable
bit set. -/
theorem spec_C2_amended (s : GpioState) (i : Nat) (hi : s.ngpio ≤ i) :
    microsemi_mss_gpio_direction_input s i = (s, .error .invalidLine) ∧
    (∀ v, microsemi_mss_gpio_direction_output s i v = (s, .error .invalidLine)) ∧
    microsemi_mss_gpio_get_direction s i = .error .invalidLine ∧
    microsemi_mss_gpio_get_value s i = .error .invalidLine ∧
    (∀ t, microsemi_mss_gpio_irq_set_type s i t = (s, .error .invalidLine)) ∧
    (∀ v, microsemi_mss_gpio_set_value s i v = s) ∧
    microsemi_mss_gpio_irq_disable s i =
      { s with cfg := fun j => if j = i % MSS_NUM_GPIO_LINES then
            microsemi_mss_gpio_assign_bit (s.cfg (i % MSS_NUM_GPIO_LINES)) MSS_GPIO_X_CFG_EN_INT 0
          else s.cfg j } ∧
    ((microsemi_mss_gpio_irq_enable s i).cfg (i % MSS_NUM_GPIO_LINES)).testBit
        MSS_GPIO_X_CFG_EN_INT = true :=
  ⟨direction_input_out_of_range s i hi,
    fun v => direction_output_out_of_range s i v hi,
    get_direction_out_of_range s i hi,
    get_value_out_of_range s i hi,
    fun t => irq_set_type_out_of_range s i t hi,
    fun v => set_value_out_of_range s i v hi,
    irq_disable_eq s i,
    irq_enable_cfg_en_int s i⟩

/-- Claim C2 witness: the amended statement evaluated at index 40 on a
32-line controller. -/
theorem spec_C2_amended_witness :
    sampleState.ngpio ≤ 40 ∧
      microsemi_mss_gpio_get_value sampleState 40 = .error .invalidLine :=
  ⟨by decide, (spec_C2_amended sampleState 40 (by decide)).2.2.2.1⟩

/-- Claim C3: for every in-range index, `setTriggerType` encodes
level-high, level-low, edge-rising, edge-falling and edge-both as the
3-bit codes 0,1,2,3,4 shifted into bits 5–7, degrades every unrecognized
request to level-low, reports success, and ORs the encoded bits into the
line's config register without clearing the previous trigger bits, so
bits of repeated calls accumulate. -/
theorem spec_C3 (s : GpioState) (i t t1 t2 : Nat) (hi : i < s.ngpio) :
    mss_gpio_interrupt_type IRQ_TYPE_LEVEL_HIGH = 0 <<< 5 ∧
    mss_gpio_interrupt_type IRQ_TYPE_LEVEL_LOW = 1 <<< 5 ∧
    mss_gpio_interrupt_type IRQ_TYPE_EDGE_RISING = 2 <<< 5 ∧
    mss_gpio_interrupt_type IRQ_TYPE_EDGE_FALLING = 3 <<< 5 ∧
    mss_gpio_interrupt_type IRQ_TYPE_EDGE_BOTH = 4 <<< 5 ∧
    (t ≠ IRQ_TYPE_EDGE_BOTH → t ≠ IRQ_TYPE_EDGE_FALLING → t ≠ IRQ_TYPE_EDGE_RISING →
      t ≠ IRQ_TYPE_LEVEL_HIGH → mss_gpio_interrupt_type t = 1 <<< 5) ∧
    (microsemi_mss_gpio_irq_set_type s i t).2 = .ok () ∧
    (microsemi_mss_gpio_irq_set_type s i t).1.cfg i
      = s.cfg i ||| mss_gpio_interrupt_type t ∧
    (microsemi_mss_gpio_irq_set_type
        (microsemi_mss_gpio_irq_set_type s i t1).1 i t2).1.cfg i
      = s.cfg i ||| mss_gpio_interrupt_type t1 ||| mss_gpio_interrupt_type t2 := by
  refine ⟨by decide, by decide, by decide, by decide, by decide, ?_, ?_, ?_, ?_⟩
  · intro h1 h2 h3 h4
    unfold mss_gpio_interrupt_type
    rw [if_neg h1, if_neg h2, if_neg h3, if_neg h4]
    rfl
  · rw [irq_set_type_in_range s i t hi]
  · exact irq_set_type_cfg_self s i t hi
  · have hng : i < (microsemi_mss_gpio_irq_set_type s i t1).1.ngpio := by
      rw [irq_set_type_ngpio]
      exact hi
    rw [irq_set_type_cfg_self _ i t2 hng, irq_set_type_cfg_self s i t1 hi]

/-- Claim C3 witness: the trigger-accumulation equation evaluated on a
concrete state at line 3 with an unrecognized request (type 0). -/
theorem spec_C3_witness :
    3 < sampleState.ngpio ∧
      (microsemi_mss_gpio_irq_set_type sampleState 3 0).1.cfg 3
        = sampleState.cfg 3 ||| mss_gpio_interrupt_type 0 :=
  ⟨by decide, (spec_C3 sampleState 3 0 1 2 (by decide)).2.2.2.2.2.2.2.1⟩

theorem handler_foldl_259_irqStatus (t : HandlerTrace) (h : t.state.irqStatus = 548) :
    (([2, 5, 9] : List Nat).foldl mss_gpio_handler_step t).state.irqStatus = 0 := by
  obtain ⟨⟨n, cfg, irq, inp, out⟩, d, w⟩ := t
  have h2 : irq = 548 := h
  subst h2
  simp only [List.foldl_cons, List.foldl_nil, mss_gpio_handler_step]
  decide

theorem handler_state_cfg (s : GpioState) :
    (microsemi_gpio_irq_handler s).state.cfg = s.cfg := by
  unfold microsemi_gpio_irq_handler
  exact (handler_foldl_state_misc _ _).1.1

/-- Claim C4: on a controller with at least 10 lines whose status register
holds exactly bits {2, 5, 9} (the value 548), one handler call dispatches
exactly the three logical interrupts 2, 5, 9 in ascending order and
leaves the status register all-clear while the config registers are
untouched; on an all-clear status register the handler dispatches nothing,
performs no status-register write, and leaves the state unchanged. -/
theorem spec_C4 (s : GpioState) (h10 : 10 ≤ s.ngpio) (h548 : s.irqStatus = 548) :
    (microsemi_gpio_irq_handler s).dispatched = [2, 5, 9] ∧
    (microsemi_gpio_irq_handler s).state.irqStatus = 0 ∧
    (microsemi_gpio_irq_handler s).state.cfg = s.cfg ∧
    (∀ s2 : GpioState, s2.irqStatus = 0 →
      microsemi_gpio_irq_handler s2
        = { state := s2, dispatched := [], statusWrites := [] }) := by
  refine ⟨?_, ?_, handler_state_cfg s, fun s2 h0 => handler_of_zero_status s2 h0⟩
  · rw [handler_dispatched, h548,
      show (548 : Nat) &&& MSS_GPIO_IRQ_MASK = 548 from by decide,
      setBitIndices_548 _ h10]
  · unfold microsemi_gpio_irq_handler
    simp only [h548, show (548 : Nat) &&& MSS_GPIO_IRQ_MASK = 548 from by decide,
      setBitIndices_548 _ h10]
    exact handler_foldl_259_irqStatus _ h548

/-- Claim C4 witness: the dispatch list evaluated on the 10-line state with
status 548. -/
theorem spec_C4_witness :
    10 ≤ s0C4.ngpio ∧ (microsemi_gpio_irq_handler s0C4).dispatched = [2, 5, 9] :=
  ⟨by decide, (spec_C4 s0C4 (by decide) (by decide)).1⟩

/-! Projection lemmas for `irq_enable`, `irq_disable` and `get_direction`. -/

theorem enable_input_step_in_range (s : GpioState) (i : Nat) (hi : i < s.ngpio) :
    mss_gpio_irq_enable_input_step s i =
      { s with cfg := fun j => if j = i then
            (s.cfg i ||| BIT MSS_GPIO_X_CFG_BIT_EN_IN) &&&
              (MASK32 ^^^ (BIT MSS_GPIO_X_CFG_BIT_EN_OUT ||| BIT MSS_GPIO_X_CFG_BIT_GPIO_OE))
          else s.cfg j } := by
  unfold mss_gpio_irq_enable_input_step
  rw [direction_input_in_range s i hi]

theorem enable_input_step_cfg_self (s : GpioState) (i : Nat) (hi : i < s.ngpio) :
    (mss_gpio_irq_enable_input_step s i).cfg i
      = (s.cfg i ||| BIT MSS_GPIO_X_CFG_BIT_EN_IN) &&&
          (MASK32 ^^^ (BIT MSS_GPIO_X_CFG_BIT_EN_OUT ||| BIT MSS_GPIO_X_CFG_BIT_GPIO_OE)) := by
  unfold mss_gpio_irq_enable_input_step
  rw [direction_input_in_range s i hi]
  simp

theorem irq_enable_cfg_self (s : GpioState) (i : Nat) (hi : i < s.ngpio) (h32 : i < 32) :
    (microsemi_mss_gpio_irq_enable s i).cfg i
      = microsemi_mss_gpio_assign_bit
          ((s.cfg i ||| BIT MSS_GPIO_X_CFG_BIT_EN_IN) &&&
            (MASK32 ^^^ (BIT MSS_GPIO_X_CFG_BIT_EN_OUT ||| BIT MSS_GPIO_X_CFG_BIT_GPIO_OE)))
          MSS_GPIO_X_CFG_EN_INT 1 := by
  have him : i % MSS_NUM_GPIO_LINES = i := Nat.mod_eq_of_lt h32
  rw [irq_enable_eq_steps, him, enable_int_step_cfg_self,
    show (mss_gpio_irq_enable_sticky_step (mss_gpio_irq_enable_input_step s i) i).cfg
        = (mss_gpio_irq_enable_input_step s i).cfg from rfl,
    enable_input_step_cfg_self s i hi]

theorem irq_disable_cfg_self (s : GpioState) (hwirq : Nat) :
    (microsemi_mss_gpio_irq_disable s hwirq).cfg (hwirq % MSS_NUM_GPIO_LINES)
      = microsemi_mss_gpio_assign_bit (s.cfg (hwirq % MSS_NUM_GPIO_LINES))
          MSS_GPIO_X_CFG_EN_INT 0 := by
  rw [irq_disable_eq]
  simp

theorem irq_disable_cfg_other (s : GpioState) (hwirq j : Nat)
    (hj : j ≠ hwirq % MSS_NUM_GPIO_LINES) :
    (microsemi_mss_gpio_irq_disable s hwirq).cfg j = s.cfg j := by
  rw [irq_disable_eq]
  simp [hj]

theorem get_direction_of_input_bit (s : GpioState) (i : Nat) (hi : i < s.ngpio)
    (h : (s.cfg i).testBit MSS_GPIO_X_CFG_BIT_EN_IN = true) :
    microsemi_mss_gpio_get_direction s i = .ok 1 := by
  unfold microsemi_mss_gpio_get_direction
  rw [if_neg (not_le.2 hi),
    show BIT MSS_GPIO_X_CFG_BIT_EN_IN = 2 ^ 1 from by decide,
    if_pos ((land_two_pow_ne_zero_iff (s.cfg i) 1).2 h)]

theorem get_direction_of_no_input_bit (s : GpioState) (i : Nat) (hi : i < s.ngpio)
    (h : (s.cfg i).testBit MSS_GPIO_X_CFG_BIT_EN_IN = false) :
    microsemi_mss_gpio_get_direction s i = .ok 0 := by
  unfold microsemi_mss_gpio_get_direction
  rw [if_neg (not_le.2 hi), show BIT MSS_GPIO_X_CFG_BIT_EN_IN = 2 ^ 1 from by decide,
    if_neg (by
      intro hc
      rw [land_two_pow_ne_zero_iff] at hc
      have h1 : (s.cfg i).testBit 1 = false := h
      simp [h1] at hc)]
  exact ite_self _

theorem direction_output_fst_outputReg (s : GpioState) (i v : Nat) (hi : i < s.ngpio) :
    (microsemi_mss_gpio_direction_output s i v).1.outputReg
      = microsemi_mss_gpio_assign_bit s.outputReg i v := by
  rw [direction_output_in_range s i v hi]

theorem direction_output_fst_cfg_self (s : GpioState) (i v : Nat) (hi : i < s.ngpio) :
    (microsemi_mss_gpio_direction_output s i v).1.cfg i
      = (0 ||| (BIT MSS_GPIO_X_CFG_BIT_EN_OUT ||| BIT MSS_GPIO_X_CFG_BIT_GPIO_OE)) &&&
          (MASK32 ^^^ BIT MSS_GPIO_X_CFG_BIT_EN_IN) := by
  rw [direction_output_in_range s i v hi]
  simp

theorem direction_output_fst_cfg_other (s : GpioState) (i v j : Nat) (hi : i < s.ngpio)
    (hj : j ≠ i) :
    (microsemi_mss_gpio_direction_output s i v).1.cfg j = s.cfg j := by
  rw [direction_output_in_range s i v hi]
  simp [hj]

theorem direction_output_fst_irqStatus (s : GpioState) (i v : Nat) (hi : i < s.ngpio) :
    (microsemi_mss_gpio_direction_output s i v).1.irqStatus = s.irqStatus := by
  rw [direction_output_in_range s i v hi]

theorem direction_output_fst_inputReg (s : GpioState) (i v : Nat) (hi : i < s.ngpio) :
    (microsemi_mss_gpio_direction_output s i v).1.inputReg = s.inputReg := by
  rw [direction_output_in_range s i v hi]

theorem direction_output_fst_ngpio (s : GpioState) (i v : Nat) (hi : i < s.ngpio) :
    (microsemi_mss_gpio_direction_output s i v).1.ngpio = s.ngpio := by
  rw [direction_output_in_range s i v hi]

theorem direction_output_snd (s : GpioState) (i v : Nat) (hi : i < s.ngpio) :
    (microsemi_mss_gpio_direction_output s i v).2 = .ok () := by
  rw [direction_output_in_range s i v hi]

/-- Claim C5: for every in-range index, `enable` is exactly the composition
of three steps in order — force input direction via the direction-input
logic, clear the line's sticky pending bit in the status register, set the
interrupt-enable bit in the line's config register — so afterwards the
line is in input direction with its sticky bit clear and interrupt-enable
set; a second `enable` re-establishes the same post-state (sticky clear,
interrupt-enable set), and a dispatch cycle run after the second call
dispatches nothing for the line, so the second call alone causes no
dispatch side effect. -/
theorem spec_C5 (s : GpioState) (i : Nat) (hi : i < s.ngpio) (hn : s.ngpio ≤ 32) :
    (microsemi_mss_gpio_irq_enable s i =
      mss_gpio_irq_enable_int_step
        (mss_gpio_irq_enable_sticky_step (mss_gpio_irq_enable_input_step s i) i) i) ∧
    ((microsemi_mss_gpio_irq_enable s i).cfg i).testBit MSS_GPIO_X_CFG_BIT_EN_IN = true ∧
    ((microsemi_mss_gpio_irq_enable s i).cfg i).testBit MSS_GPIO_X_CFG_BIT_EN_OUT = false ∧
    ((microsemi_mss_gpio_irq_enable s i).cfg i).testBit MSS_GPIO_X_CFG_BIT_GPIO_OE = false ∧
    (microsemi_mss_gpio_irq_enable s i).irqStatus.testBit i = false ∧
    ((microsemi_mss_gpio_irq_enable s i).cfg i).testBit MSS_GPIO_X_CFG_EN_INT = true ∧
    ((microsemi_mss_gpio_irq_enable (microsemi_mss_gpio_irq_enable s i) i).cfg i).testBit
        MSS_GPIO_X_CFG_EN_INT = true ∧
    (microsemi_mss_gpio_irq_enable
        (microsemi_mss_gpio_irq_enable s i) i).irqStatus.testBit i = false ∧
    i ∉ (microsemi_gpio_irq_handler
        (microsemi_mss_gpio_irq_enable (microsemi_mss_gpio_irq_enable s i) i)).dispatched := by
  have h32 : i < 32 := lt_of_lt_of_le hi hn
  have him : i % MSS_NUM_GPIO_LINES = i := Nat.mod_eq_of_lt h32
  have hcIn : (s.cfg i ||| BIT MSS_GPIO_X_CFG_BIT_EN_IN) &&&
      (MASK32 ^^^ (BIT MSS_GPIO_X_CFG_BIT_EN_OUT ||| BIT MSS_GPIO_X_CFG_BIT_GPIO_OE))
      < 2 ^ 32 :=
    Nat.and_lt_two_pow _ (Nat.xor_lt_two_pow MASK32_lt (Nat.or_lt_two_pow BIT_lt BIT_lt))
  have hoff3 : MSS_GPIO_X_CFG_EN_INT < 32 := by norm_num [MSS_GPIO_X_CFG_EN_INT]
  have hsticky2 := irq_enable_sticky_cleared (microsemi_mss_gpio_irq_enable s i) i
  rw [him] at hsticky2
  refine ⟨?_, ?_, ?_, ?_, ?_, ?_, ?_, hsticky2, ?_⟩
  · rw [irq_enable_eq_steps, him]
  · rw [irq_enable_cfg_self s i hi h32,
      assign_bit_set_testBit _ hoff3 (by norm_num) _ hcIn]
    simp only [Nat.testBit_and, Nat.testBit_or, Nat.testBit_xor, MASK32_testBit,
      MSS_GPIO_X_CFG_BIT_EN_IN, MSS_GPIO_X_CFG_BIT_EN_OUT, MSS_GPIO_X_CFG_BIT_GPIO_OE,
      MSS_GPIO_X_CFG_EN_INT,
      BIT_testBit (show (0 : Nat) < 32 by norm_num),
      BIT_testBit (show (1 : Nat) < 32 by norm_num),
      BIT_testBit (show (2 : Nat) < 32 by norm_num)]
    simp
  · rw [irq_enable_cfg_self s i hi h32,
      assign_bit_set_testBit _ hoff3 (by norm_num) _ hcIn]
    simp only [Nat.testBit_and, Nat.testBit_or, Nat.testBit_xor, MASK32_testBit,
      MSS_GPIO_X_CFG_BIT_EN_IN, MSS_GPIO_X_CFG_BIT_EN_OUT, MSS_GPIO_X_CFG_BIT_GPIO_OE,
      MSS_GPIO_X_CFG_EN_INT,
      BIT_testBit (show (0 : Nat) < 32 by norm_num),
      BIT_testBit (show (1 : Nat) < 32 by norm_num),
      BIT_testBit (show (2 : Nat) < 32 by norm_num)]
    simp
  · rw [irq_enable_cfg_self s i hi h32,
      assign_bit_set_testBit _ hoff3 (by norm_num) _ hcIn]
    simp only [Nat.testBit_and, Nat.testBit_or, Nat.testBit_xor, MASK32_testBit,
      MSS_GPIO_X_CFG_BIT_EN_IN, MSS_GPIO_X_CFG_BIT_EN_OUT, MSS_GPIO_X_CFG_BIT_GPIO_OE,
      MSS_GPIO_X_CFG_EN_INT,
      BIT_testBit (show (0 : Nat) < 32 by norm_num),
      BIT_testBit (show (1 : Nat) < 32 by norm_num),
      BIT_testBit (show (2 : Nat) < 32 by norm_num)]
    simp
  · have h5 := irq_enable_sticky_cleared s i
    rwa [him] at h5
  · have h6 := irq_enable_cfg_en_int s i
    rwa [him] at h6
  · have h7 := irq_enable_cfg_en_int (microsemi_mss_gpio_irq_enable s i) i
    rwa [him] at h7
  · intro hmem
    rw [handler_dispatched] at hmem
    rcases mem_setBitIndices.1 hmem with ⟨_, htb⟩
    rw [Nat.testBit_and] at htb
    simp [hsticky2] at htb

/-- Claim C5 witness: the post-state of `enable` on line 4 of a concrete
32-line controller has the interrupt-enable bit set. -/
theorem spec_C5_witness :
    4 < sampleState.ngpio ∧ sampleState.ngpio ≤ 32 ∧
      ((microsemi_mss_gpio_irq_enable sampleState 4).cfg 4).testBit
        MSS_GPIO_X_CFG_EN_INT = true :=
  ⟨by decide, by decide, (spec_C5 sampleState 4 (by decide) (by decide)).2.2.2.2.2.1⟩

/-- Claim C6: for every in-range index, `setDirectionOutput` overwrites the
line's config register with exactly enable-output and output-enable set
and every other bit cleared, then writes the requested value into the
line's bit of the shared output register (leaving the other output bits,
the other config registers, the status register and the input register
unchanged), and returns success. -/
theorem spec_C6 (s : GpioState) (i v : Nat) (hi : i < s.ngpio) (hn : s.ngpio ≤ 32)
    (hout : s.outputReg < 2 ^ 32) :
    (microsemi_mss_gpio_direction_output s i v).2 = .ok () ∧
    (microsemi_mss_gpio_direction_output s i v).1.cfg i
      = BIT MSS_GPIO_X_CFG_BIT_EN_OUT ||| BIT MSS_GPIO_X_CFG_BIT_GPIO_OE ∧
    (microsemi_mss_gpio_direction_output s i v).1.outputReg.testBit i = decide (v ≠ 0) ∧
    (∀ j, j ≠ i →
      (microsemi_mss_gpio_direction_output s i v).1.outputReg.testBit j
        = s.outputReg.testBit j) ∧
    (∀ j, j ≠ i → (microsemi_mss_gpio_direction_output s i v).1.cfg j = s.cfg j) ∧
    (microsemi_mss_gpio_direction_output s i v).1.irqStatus = s.irqStatus ∧
    (microsemi_mss_gpio_direction_output s i v).1.inputReg = s.inputReg := by
  have h32 : i < 32 := lt_of_lt_of_le hi hn
  refine ⟨direction_output_snd s i v hi, ?_, ?_, ?_,
    fun j hj => direction_output_fst_cfg_other s i v j hi hj,
    direction_output_fst_irqStatus s i v hi, direction_output_fst_inputReg s i v hi⟩
  · rw [direction_output_fst_cfg_self s i v hi]
    decide
  · rw [direction_output_fst_outputReg s i v hi]
    by_cases hv : v = 0
    · subst hv
      rw [assign_bit_clear_testBit_self _ h32]
      simp
    · rw [assign_bit_set_testBit_self _ h32 hv]
      simp [hv]
  · intro j hj
    rw [direction_output_fst_outputReg s i v hi]
    by_cases hv : v = 0
    · subst hv
      rw [assign_bit_clear_testBit _ h32 _ hout]
      simp [Ne.symm hj]
    · rw [assign_bit_set_testBit _ h32 hv _ hout]
      simp [Ne.symm hj]

/-- Claim C6 witness: the overwrite and output-bit write evaluated on a
concrete state at line 2 with value 7. -/
theorem spec_C6_witness :
    2 < sampleState.ngpio ∧ sampleState.ngpio ≤ 32 ∧ sampleState.outputReg < 2 ^ 32 ∧
      (microsemi_mss_gpio_direction_output sampleState 2 7).1.outputReg.testBit 2
        = decide ((7 : Nat) ≠ 0) :=
  ⟨by decide, by decide, by decide,
    (spec_C6 sampleState 2 7 (by decide) (by decide) (by decide)).2.2.1⟩

/-- Claim C7 counterexample: on a single-line controller whose shared input
register reads 0, `setDirectionOutput(0, 1)` followed by `getValue(0)`
returns 0, not the written value 1 — `getValue` reads the input register,
which the output write never touches, so the round trip of the claim
fails whenever the hardware does not mirror the driven value back into
the input register. -/
theorem spec_C7_counterexample :
    microsemi_mss_gpio_get_value (microsemi_mss_gpio_direction_output s0C7 0 1).1 0
        = .ok 0 ∧
      (Except.ok 0 : Except GpioError Nat) ≠ .ok 1 := by
  constructor
  · rfl
  · simp

/-- Claim C7 (amended): `getValue` reads the line's bit from the shared
input register regardless of the configured direction, and
`setDirectionOutput(i, v)` leaves the input register unchanged;
consequently `setDirectionOutput(i, v)` followed by `getValue(i)` returns
the bit of the unchanged shared input register (not necessarily `v` — it
equals `v` only when the hardware mirrors the driven output into the
input register). -/
theorem spec_C7_amended (s : GpioState) (i v : Nat) (hi : i < s.ngpio) :
    microsemi_mss_gpio_get_value (microsemi_mss_gpio_direction_output s i v).1 i
      = microsemi_mss_gpio_get_value s i ∧
    microsemi_mss_gpio_get_value s i
      = .ok (if s.inputReg &&& BIT i ≠ 0 then 1 else 0) ∧
    (microsemi_mss_gpio_direction_output s i v).1.inputReg = s.inputReg := by
  refine ⟨?_, get_value_in_range s i hi, direction_output_fst_inputReg s i v hi⟩
  have hi2 : i < (microsemi_mss_gpio_direction_output s i v).1.ngpio := by
    rw [direction_output_fst_ngpio s i v hi]
    exact hi
  rw [get_value_in_range _ i hi2, get_value_in_range s i hi,
    direction_output_fst_inputReg s i v hi]

/-- Claim C7 witness: the amended round trip evaluated on a concrete state
at line 1 with value 5. -/
theorem spec_C7_amended_witness :
    1 < sampleState.ngpio ∧
      microsemi_mss_gpio_get_value
          (microsemi_mss_gpio_direction_output sampleState 1 5).1 1
        = microsemi_mss_gpio_get_value sampleState 1 :=
  ⟨by decide, (spec_C7_amended sampleState 1 5 (by decide)).1⟩

/-- Claim C8: the probe core fails with `TooManyLines` whenever the line
count exceeds 32, and on success unconditionally clears the
interrupt-enable bit in the config register of every line below the line
count — regardless of the prior hardware state — while preserving every
other bit of those config registers, the config registers of the
remaining lines, and the status, input and output registers. -/
theorem spec_C8 (s : GpioState) (n : Nat) (hcfg : ∀ i, s.cfg i < 2 ^ 32) :
    (n > 32 → microsemi_mss_gpio_probe n s = .error .tooManyLines) ∧
    (n ≤ 32 → ∃ t, microsemi_mss_gpio_probe n s = .ok t ∧ t.ngpio = n ∧
      (∀ i, i < n → ((t.cfg i).testBit MSS_GPIO_X_CFG_EN_INT = false ∧
        ∀ b, b ≠ MSS_GPIO_X_CFG_EN_INT → (t.cfg i).testBit b = (s.cfg i).testBit b)) ∧
      (∀ i, n ≤ i → t.cfg i = s.cfg i) ∧
      t.irqStatus = s.irqStatus ∧ t.inputReg = s.inputReg ∧
      t.outputReg = s.outputReg) := by
  constructor
  · intro h
    unfold microsemi_mss_gpio_probe
    rw [if_pos (show n > MSS_NUM_GPIO_LINES from h)]
  · intro h
    unfold microsemi_mss_gpio_probe
    rw [if_neg (show ¬ n > MSS_NUM_GPIO_LINES from not_lt.2 h)]
    refine ⟨_, rfl, ?_, ?_, ?_, ?_, ?_, ?_⟩
    · exact (probe_fold_misc _ _).1
    · intro i hin
      have hc := probe_fold_cfg { s with ngpio := n } n i
      rw [if_pos hin] at hc
      rw [hc]
      constructor
      · simp only [Nat.testBit_and, Nat.testBit_xor, MASK32_testBit,
          MSS_GPIO_X_CFG_EN_INT, BIT_testBit (show (3 : Nat) < 32 by norm_num)]
        simp
      · intro b hb
        have hb3 : b ≠ 3 := hb
        by_cases hb32 : b < 32
        · simp only [Nat.testBit_and, Nat.testBit_xor, MASK32_testBit,
            MSS_GPIO_X_CFG_EN_INT, BIT_testBit (show (3 : Nat) < 32 by norm_num)]
          simp [hb32, Ne.symm hb3]
        · have hs : (s.cfg i).testBit b = false :=
            Nat.testBit_lt_two_pow
              (lt_of_lt_of_le (hcfg i) (Nat.pow_le_pow_right (by norm_num) (not_lt.1 hb32)))
          have hs2 : (({ s with ngpio := n } : GpioState).cfg i).testBit b = false := hs
          simp only [Nat.testBit_and, hs2, hs]
          simp
    · intro i hin
      have hc := probe_fold_cfg { s with ngpio := n } n i
      rw [if_neg (by omega)] at hc
      rw [hc]
    · exact (probe_fold_misc _ _).2.1
    · exact (probe_fold_misc _ _).2.2.1
    · exact (probe_fold_misc _ _).2.2.2

/-- Claim C8 witness: the probe core run with 8 lines on a concrete state
whose config registers all hold 138 (bits {1, 3, 7}). -/
theorem spec_C8_witness :
    (8 : Nat) ≤ 32 ∧ (∃ t, microsemi_mss_gpio_probe 8 sampleState = .ok t ∧
      t.ngpio = 8 ∧
      (∀ i, i < 8 → ((t.cfg i).testBit MSS_GPIO_X_CFG_EN_INT = false ∧
        ∀ b, b ≠ MSS_GPIO_X_CFG_EN_INT →
          (t.cfg i).testBit b = (sampleState.cfg i).testBit b)) ∧
      (∀ i, 8 ≤ i → t.cfg i = sampleState.cfg i) ∧
      t.irqStatus = sampleState.irqStatus ∧ t.inputReg = sampleState.inputReg ∧
      t.outputReg = sampleState.outputReg) :=
  ⟨by decide, (spec_C8 sampleState 8 (fun _ => show (138 : Nat) < 2 ^ 32 by norm_num)).2 (by decide)⟩

/-- Claim C9: for every in-range index, `disable` clears only the
interrupt-enable bit of that line's config register — the direction bits,
the trigger-type bits and every other bit of that register are preserved,
every other line's config register, the status register, the output
register and the input register are untouched — and a second `disable`
leaves interrupt-enable cleared as well. -/
theorem spec_C9 (s : GpioState) (i : Nat) (hi : i < s.ngpio) (hn : s.ngpio ≤ 32)
    (hcfg : s.cfg i < 2 ^ 32) :
    ((microsemi_mss_gpio_irq_disable s i).cfg i).testBit MSS_GPIO_X_CFG_EN_INT = false ∧
    (∀ b, b ≠ MSS_GPIO_X_CFG_EN_INT →
      ((microsemi_mss_gpio_irq_disable s i).cfg i).testBit b = (s.cfg i).testBit b) ∧
    (∀ j, j ≠ i → (microsemi_mss_gpio_irq_disable s i).cfg j = s.cfg j) ∧
    (microsemi_mss_gpio_irq_disable s i).irqStatus = s.irqStatus ∧
    (microsemi_mss_gpio_irq_disable s i).outputReg = s.outputReg ∧
    (microsemi_mss_gpio_irq_disable s i).inputReg = s.inputReg ∧
    (microsemi_mss_gpio_irq_disable s i).ngpio = s.ngpio ∧
    ((microsemi_mss_gpio_irq_disable (microsemi_mss_gpio_irq_disable s i) i).cfg i).testBit
        MSS_GPIO_X_CFG_EN_INT = false := by
  have h32 : i < 32 := lt_of_lt_of_le hi hn
  have him : i % MSS_NUM_GPIO_LINES = i := Nat.mod_eq_of_lt h32
  have hoff3 : MSS_GPIO_X_CFG_EN_INT < 32 := by norm_num [MSS_GPIO_X_CFG_EN_INT]
  have hself : ∀ t : GpioState, (microsemi_mss_gpio_irq_disable t i).cfg i
      = microsemi_mss_gpio_assign_bit (t.cfg i) MSS_GPIO_X_CFG_EN_INT 0 := by
    intro t
    have hc := irq_disable_cfg_self t i
    rwa [him] at hc
  refine ⟨?_, ?_, ?_, rfl, rfl, rfl, rfl, ?_⟩
  · rw [hself s]
    exact assign_bit_clear_testBit_self _ hoff3
  · intro b hb
    rw [hself s, assign_bit_clear_testBit _ hoff3 _ hcfg]
    simp [Ne.symm hb]
  · intro j hj
    exact irq_disable_cfg_other s i j (by rw [him]; exact hj)
  · rw [hself (microsemi_mss_gpio_irq_disable s i)]
    exact assign_bit_clear_testBit_self _ hoff3

/-- Claim C9 witness: disabling line 1 of a concrete controller whose
config register holds 138 (interrupt-enable bit set) clears that bit. -/
theorem spec_C9_witness :
    1 < sampleState.ngpio ∧ sampleState.ngpio ≤ 32 ∧ sampleState.cfg 1 < 2 ^ 32 ∧
      ((microsemi_mss_gpio_irq_disable sampleState 1).cfg 1).testBit
        MSS_GPIO_X_CFG_EN_INT = false :=
  ⟨by decide, by decide, by norm_num [sampleState],
    (spec_C9 sampleState 1 (by decide) (by decide)
      (by norm_num [sampleState])).1⟩

/-- Claim C10: for every in-range index, `getDirection` reports input
(result 1) exactly when the enable-input bit of the line's config
register is set and otherwise reports output (result 0) — both when
enable-output and output-enable are set and in the ambiguous fallback
case; consequently `setDirectionInput` followed by `getDirection` reports
input, and `setDirectionOutput` followed by `getDirection` reports
output. -/
theorem spec_C10 (s : GpioState) (i v : Nat) (hi : i < s.ngpio) :
    (microsemi_mss_gpio_get_direction s i = .ok 1
      ↔ (s.cfg i).testBit MSS_GPIO_X_CFG_BIT_EN_IN = true) ∧
    ((s.cfg i).testBit MSS_GPIO_X_CFG_BIT_EN_IN = false →
      microsemi_mss_gpio_get_direction s i = .ok 0) ∧
    microsemi_mss_gpio_get_direction (microsemi_mss_gpio_direction_input s i).1 i
      = .ok 1 ∧
    microsemi_mss_gpio_get_direction (microsemi_mss_gpio_direction_output s i v).1 i
      = .ok 0 := by
  refine ⟨⟨?_, get_direction_of_input_bit s i hi⟩,
    get_direction_of_no_input_bit s i hi, ?_, ?_⟩
  · intro hok
    by_contra hneg
    rw [get_direction_of_no_input_bit s i hi
      (Bool.not_eq_true _ ▸ Bool.of_not_eq_true hneg)] at hok
    simp at hok
  · have hi2 : i < (microsemi_mss_gpio_direction_input s i).1.ngpio := by
      rw [direction_input_in_range s i hi]
      exact hi
    apply get_direction_of_input_bit _ i hi2
    have hc := enable_input_step_cfg_self s i hi
    unfold mss_gpio_irq_enable_input_step at hc
    rw [hc]
    simp only [Nat.testBit_and, Nat.testBit_or, Nat.testBit_xor, MASK32_testBit,
      MSS_GPIO_X_CFG_BIT_EN_IN, MSS_GPIO_X_CFG_BIT_EN_OUT, MSS_GPIO_X_CFG_BIT_GPIO_OE,
      BIT_testBit (show (0 : Nat) < 32 by norm_num),
      BIT_testBit (show (1 : Nat) < 32 by norm_num),
      BIT_testBit (show (2 : Nat) < 32 by norm_num)]
    simp
  · have hi2 : i < (microsemi_mss_gpio_direction_output s i v).1.ngpio := by
      rw [direction_output_fst_ngpio s i v hi]
      exact hi
    apply get_direction_of_no_input_bit _ i hi2
    rw [direction_output_fst_cfg_self s i v hi]
    decide

/-- Claim C10 witness: the input round trip evaluated at line 0 of a
concrete controller. -/
theorem spec_C10_witness :
    0 < sampleState.ngpio ∧
      microsemi_mss_gpio_get_direction
          (microsemi_mss_gpio_direction_input sampleState 0).1 0 = .ok 1 :=
  ⟨by decide, (spec_C10 sampleState 0 3 (by decide)).2.2.1⟩
